import Mathlib

/-!
Shallow embedding of the Bitrix Pull realtime client
(`src/pull/bitrix_pull.py` and `src/pull/pull_constants.py`) and proofs
about its configuration resolution, dispatch, acknowledgment, session,
reconnection and send logic.

Python dictionaries are embedded as association lists or structures whose
fields are exactly the keys the code reads; `dict.get(k)` becomes an
`Option` lookup, `dict.get(k, d)` a field with default `d`.  Python
truthiness of a possibly-missing string value (`if message_id:`) is
embedded as "present and nonempty".  Log `print` calls are not observable
behaviour and are omitted; every other side effect (frames sent, Qt
signals emitted, timers armed or stopped, socket closes) is recorded as
an explicit `Action` in the order the code performs it.
-/

namespace BitrixPull

/-- Does the first list lead the second (character-wise)?  Structural
helper for the substring test. -/
def charsLead : List Char → List Char → Bool
  | [], _ => true
  | _ :: _, [] => false
  | p :: ps, c :: cs => p == c && charsLead ps cs

/-- Does `pat` occur as a contiguous run of `l`? -/
def charsContain (pat : List Char) : List Char → Bool
  | [] => charsLead pat []
  | c :: cs => charsLead pat (c :: cs) || charsContain pat cs

/-- Substring test embedding Python's `pat in s` on strings, scanning
every position. -/
def containsSub (s pat : String) : Bool :=
  charsContain pat.data s.data

/-- Character-wise lower-casing embedding Python's `str.lower` (the
module ids involved are plain ASCII). -/
def strLower (s : String) : String :=
  ⟨s.data.map Char.toLower⟩

/-- First `n` characters, embedding Python's `s[:n]` slice. -/
def strTake (s : String) (n : Nat) : String :=
  ⟨s.data.take n⟩

/-- Last `n` elements of a list, mirroring Python's `l[-n:]` for `n ≤ len l`. -/
def takeLast (n : Nat) (l : List String) : List String :=
  l.drop (l.length - n)

/-! ### Constants from `pull_constants.py` -/

/-- REVISION constant. -/
def REVISION : Nat := 19

/-- PullStatus values (`'offline' | 'online' | 'connect'`). -/
inductive PStatus
  | Offline
  | Online
  | Connecting
  deriving DecidableEq, Repr

/-! CloseReasons constants from `pull_constants.py`. -/

namespace CloseReasons

def NORMAL_CLOSURE : Nat := 1000

def SERVER_DIE : Nat := 1001

def CONFIG_REPLACED : Nat := 3000

def CHANNEL_EXPIRED : Nat := 3001

def SERVER_RESTARTED : Nat := 3002

def CONFIG_EXPIRED : Nat := 3003

def MANUAL : Nat := 3004

def STUCK : Nat := 3005

def WRONG_CHANNEL_ID : Nat := 4010

end CloseReasons

/-! ### Configuration data (`load_auth_data`, `load_config`) -/

/-- Fields of the `server` sub-dictionary of a Pull configuration that the
client reads. -/
structure ServerConfig where
  websocket : Option String := none
  websocket_secure : Option String := none
  hostname : Option String := none
  websocket_enabled : Bool := false
  deriving DecidableEq, Repr

/-- A channel descriptor (`channels['private']` etc.).  The source key
`end` is embedded as `endTime` (`end` is reserved in Lean). -/
structure ChannelDesc where
  id : String
  start : Nat := 0
  endTime : Nat := 0
  type : String := ""
  deriving DecidableEq, Repr

/-- A Pull configuration blob as the client reads it: `server`,
`channels` (kind ↦ descriptor) and the `api` revision numbers. -/
structure PullConfig where
  server : ServerConfig := {}
  channels : List (String × ChannelDesc) := []
  revision_web : Nat := 0
  revision_mobile : Nat := 0
  deriving DecidableEq, Repr

/-- A value stored in the captured `local_storage` mapping: either a
string that `json.loads` parses to a Pull configuration, or one that
fails to parse. -/
inductive LSVal
  | parsed (cfg : PullConfig)
  | unparseable
  deriving DecidableEq, Repr

/-- Contents of `bitrix_token.json` as far as the client reads it. -/
structure TokenFileData where
  local_storage : List (String × LSVal) := []
  cookies : List (String × String) := []
  session_storage : List (String × String) := []
  deriving DecidableEq, Repr

/-- Result of `load_auth_data`: the empty dictionary is embedded as all
fields empty / `none`. -/
structure AuthData where
  pull_config : Option PullConfig := none
  cookies : List (String × String) := []
  deriving DecidableEq, Repr

/-- Ambient inputs of the construction and connection path: whether the
token file exists and what it holds, the current clock, the md5/sha1
digests (abstracted as opaque result strings, their exact values never
matter to the control flow), and the REST collaborator's token replies. -/
structure Env where
  tokenFile : Option TokenFileData := none
  now : Nat := 0
  randHash : String := "r"
  privHash : String := "p"
  genHash : String := "g"
  getTok : Option String := none
  createTok : Option String := none
  deriving DecidableEq, Repr

/-- Minimal server configuration synthesized by `load_auth_data` when the
token file holds no parseable Pull config. -/
def minimalServerConfig : ServerConfig :=
  { websocket := some "wss://ugautodetal.ru/bitrix/subws/"
    websocket_secure := some "wss://ugautodetal.ru/bitrix/subws/"
    hostname := some "www.ugavtopart.ru"
    websocket_enabled := true }

/-- The synthesized minimal Pull config: default server block plus a
`private` channel whose id is `md5(user_id ++ timestamp ++ random)` ++
":" ++ `sha1("private" ++ user_id)`, valid for 12 hours. -/
def minimalPullConfig (env : Env) : PullConfig :=
  { server := minimalServerConfig
    channels := [("private",
      { id := env.randHash ++ ":" ++ env.privHash
        start := env.now
        endTime := env.now + 43200
        type := "private" })]
    revision_web := 19
    revision_mobile := 3 }

/-- First `local_storage` entry whose key contains both `bx-pull` and
`config` and whose value parses as a Pull config (parse failures
`continue` the scan). -/
def findPullConfig : List (String × LSVal) → Option PullConfig
  | [] => none
  | (k, v) :: rest =>
    if containsSub k "bx-pull" && containsSub k "config" then
      match v with
      | .parsed cfg => some cfg
      | .unparseable => findPullConfig rest
    else
      findPullConfig rest

/-- Embedding of `load_auth_data`: missing `bitrix_token.json` returns
the empty dictionary; otherwise the captured Pull config is adopted when
a `local_storage` key holds one, and a minimal config is synthesized
otherwise. -/
def load_auth_data (env : Env) : AuthData :=
  match env.tokenFile with
  | none => {}
  | some tf =>
    match findPullConfig tf.local_storage with
    | some cfg => { pull_config := some cfg, cookies := tf.cookies }
    | none => { pull_config := some (minimalPullConfig env), cookies := tf.cookies }

/-! ### Inbound message shapes (`handle_json_message`, `handle_incoming_message`) -/

/-- The `body.params` sub-dictionary of an inbound message, restricted to
the keys the handlers read (`channel_id` for the pull module, `message` /
`author` for the chat module); handlers forward the whole value. -/
structure PParams where
  channel_id : Option String := none
  message : String := ""
  author : String := ""
  deriving DecidableEq, Repr

/-- The `body` sub-dictionary of a `message` RPC's params
(`params.get('body', {})`), with the defaults the code supplies. -/
structure InBody where
  module_id : String := ""
  command : String := ""
  params : PParams := {}
  deriving DecidableEq, Repr

/-- Params of an inbound `message` RPC: `mid` (`params.get('mid')`),
`body` and `extra` (forwarded opaquely as a key/value list). -/
structure MsgParams where
  mid : Option String := none
  body : InBody := {}
  extra : List (String × String) := []
  deriving DecidableEq, Repr

/-- A parsed inbound JSON-RPC object as `handle_json_message` reads it:
`data.get('method')`, `data.get('params', {})`, `data.get('id')`. -/
structure JsonMsg where
  method : Option String := none
  params : MsgParams := {}
  id : Option Nat := none
  deriving DecidableEq, Repr

/-- Python truthiness of `params.get('mid')`: present and nonempty. -/
def midTruthy : Option String → Bool
  | some s => !s.isEmpty
  | none => false

/-! ### Outbound frames and observable actions -/

/-- An outbound frame, one constructor per `json.dumps` site; each
carries exactly the payload fields of the dictionary literal it embeds
(the constant `jsonrpc: "2.0"` key is implicit). -/
inductive OutFrame
  /-- `send_initial_subscription`: method `subscribe`, channels.private
  `[channel_id]`, channels.shared `[]`, user/site ids, timestamp. -/
  | subscribe (channel : Option String) (user_id : Int) (site_id : String)
      (timestamp : Nat) (id : Nat)
  /-- `send_keepalive`: method `ping` with a timestamp. -/
  | keepalive (timestamp : Nat) (id : Nat)
  /-- Reply to an inbound `ping` RPC: `result: "pong"` echoing the
  incoming envelope id (NOT allocated from the counter). -/
  | pongResult (id : Option Nat)
  /-- `send_acknowledgment`: method `ack`, params.mid. -/
  | ack (mid : String) (id : Nat)
  /-- `send_message`: method `publish`, params.channelList, body
  `uad.shop.chat` / `newMessage` with author, message text, timestamp. -/
  | publish (channelList : List String) (module_id : String) (command : String)
      (author : String) (message : String) (timestamp : Nat) (id : Nat)
  deriving DecidableEq, Repr

/-- A payload emitted on the `message_received` Qt signal. -/
inductive Emitted
  /-- The normalized `{'type': "<module>.<command>", 'data': {'params', 'extra'}}`
  shape every module handler emits. -/
  | event (type : String) (params : PParams) (extra : List (String × String))
  /-- The `{'type': 'jsonrpc', 'method': method, 'data': data}` shape for
  unknown RPC methods. -/
  | jsonrpc (method : Option String)
  deriving DecidableEq, Repr

/-- An observable side effect, recorded in execution order. -/
inductive Action
  /-- A frame written to the websocket (`self.ws.send`). -/
  | sendFrame (f : OutFrame)
  /-- `connection_status.emit(connected, msg)`. -/
  | emitStatus (connected : Bool) (msg : String)
  /-- `message_received.emit(...)`. -/
  | emitMessage (m : Emitted)
  /-- `debug_info.emit(text)`. -/
  | emitDebug (text : String)
  /-- `raw_message_received.emit(text)`. -/
  | emitRaw (text : String)
  /-- `QTimer.singleShot(delay * 1000, self.reconnect)`: a one-shot
  reconnect timer armed for `delay` seconds. -/
  | armTimer (delaySecs : Nat)
  /-- The periodic 20 s keepalive `QTimer` started. -/
  | startPing
  /-- The keepalive `QTimer` stopped. -/
  | stopPing
  /-- `self.ws.close(code, reason)`. -/
  | closeWs (code : Nat) (reason : String)
  deriving DecidableEq, Repr

/-! ### Client state (`__init__`) -/

/-- The mutable fields of `BitrixPullClient` that the verified behaviour
touches.  `ws` and `ping_timer` record object presence as booleans;
`session['mid']`'s initial integer `0` is embedded as `none` (it is only
ever overwritten with an incoming mid and read back for debugging). -/
structure PullState where
  user_id : Int := 0
  site_id : String := "ap"
  use_api_token : Bool := false
  api_token : Option String := none
  pull_config : Option PullConfig := none
  cookies : List (String × String) := []
  ws : Bool := false
  running : Bool := false
  is_authenticated : Bool := false
  channel_id : Option String := none
  config : Option PullConfig := none
  reconnect_attempts : Nat := 0
  max_reconnect_attempts : Nat := 10
  ping_timer : Bool := false
  status : PStatus := PStatus.Offline
  is_manual_disconnect : Bool := false
  session_mid : Option String := none
  lastMessageIds : List String := []
  rpc_id_counter : Nat := 0
  deriving DecidableEq, Repr

/-- Embedding of `__init__(api, user_id, site_id, use_api_token)`: loads
auth data, stores the captured pull config (the empty dict is `none`)
both as `pull_config` and as the working `config`, and zeroes the rest. -/
def initState (env : Env) (user_id : Int) (site_id : String)
    (use_api_token : Bool) : PullState :=
  let auth := load_auth_data env
  { user_id := user_id
    site_id := site_id
    use_api_token := use_api_token
    pull_config := auth.pull_config
    cookies := auth.cookies
    config := auth.pull_config }

/-- Embedding of `get_next_rpc_id`: increment the counter and return it. -/
def get_next_rpc_id (s : PullState) : PullState × Nat :=
  ({ s with rpc_id_counter := s.rpc_id_counter + 1 }, s.rpc_id_counter + 1)

/-! ### Message dispatch (`handle_*` methods) -/

/-- Embedding of `send_acknowledgment(message_id)`: one `ack` frame with
a freshly allocated rpc id. -/
def send_acknowledgment (s : PullState) (message_id : String) :
    PullState × List Action :=
  let (s, rid) := get_next_rpc_id s
  (s, [Action.sendFrame (OutFrame.ack message_id rid)])

/-- Embedding of `handle_uad_shop_chat`: `newMessage` additionally emits
a raw-debug line; every call emits one normalized event. -/
def handle_uad_shop_chat (s : PullState) (command : String) (params : PParams)
    (extra : List (String × String)) : PullState × List Action :=
  let rawActs :=
    if command = "newMessage" then
      [Action.emitRaw ("uad.shop.chat." ++ command ++ ": " ++ strTake params.message 100 ++ "...")]
    else []
  (s, rawActs ++ [Action.emitMessage (Emitted.event ("uad.shop.chat." ++ command) params extra)])

/-- Embedding of `handle_im_event`. -/
def handle_im_event (s : PullState) (command : String) (params : PParams)
    (extra : List (String × String)) : PullState × List Action :=
  (s, [Action.emitMessage (Emitted.event ("im." ++ command) params extra)])

/-- Embedding of `handle_online_event`. -/
def handle_online_event (s : PullState) (command : String) (params : PParams)
    (extra : List (String × String)) : PullState × List Action :=
  (s, [Action.emitMessage (Emitted.event ("online." ++ command) params extra)])

/-- Embedding of `handle_pull_event`: `channel_replaced` with a truthy
`channel_id` overwrites the stored channel id; every call emits one
normalized event (and nothing else — no reconnect is scheduled here). -/
def handle_pull_event (s : PullState) (command : String) (params : PParams)
    (extra : List (String × String)) : PullState × List Action :=
  let s :=
    if command = "channel_replaced" then
      match params.channel_id with
      | some c => if !c.isEmpty then { s with channel_id := some c } else s
      | none => s
    else s
  (s, [Action.emitMessage (Emitted.event ("pull." ++ command) params extra)])

/-- Embedding of `handle_generic_event`. -/
def handle_generic_event (s : PullState) (module_id command : String)
    (params : PParams) (extra : List (String × String)) : PullState × List Action :=
  (s, [Action.emitMessage (Emitted.event (module_id ++ "." ++ command) params extra)])

/-- The module dispatch chain of `handle_incoming_message` (the
`if module_id == ... elif ...` ladder). -/
def dispatchModule (s : PullState) (module_id command : String) (params : PParams)
    (extra : List (String × String)) : PullState × List Action :=
  if module_id = "uad.shop.chat" then handle_uad_shop_chat s command params extra
  else if module_id = "im" then handle_im_event s command params extra
  else if module_id = "online" then handle_online_event s command params extra
  else if module_id = "pull" then handle_pull_event s command params extra
  else handle_generic_event s module_id command params extra

/-- Embedding of `handle_incoming_message(params)`: when `mid` is truthy,
record it into `session['mid']` and append it to `lastMessageIds`
(trimmed to its last 10 entries); dispatch on the case-folded
`body.module_id` and `body.command`; when `mid` is truthy, send one ack
after dispatch.  There is no membership test on `lastMessageIds`:
duplicates are processed like any other message. -/
def handle_incoming_message (s : PullState) (p : MsgParams) :
    PullState × List Action :=
  let s :=
    if midTruthy p.mid then
      let m := p.mid.getD ""
      let ids := s.lastMessageIds ++ [m]
      let ids := if ids.length > 10 then takeLast 10 ids else ids
      { s with session_mid := some m, lastMessageIds := ids }
    else s
  let module_id := strLower p.body.module_id
  let (s, dispatchActs) := dispatchModule s module_id p.body.command p.body.params p.extra
  if midTruthy p.mid then
    let (s, ackActs) := send_acknowledgment s (p.mid.getD "")
    (s, dispatchActs ++ ackActs)
  else
    (s, dispatchActs)

/-- Embedding of `handle_json_message(data)`: dispatch on `method` —
`message` to the incoming-message handler, `ping` to a `result: "pong"`
reply echoing the envelope id (only when a socket is present), `result`
and `error` are logged only, anything else is emitted as a generic
jsonrpc event. -/
def handle_json_message (s : PullState) (data : JsonMsg) :
    PullState × List Action :=
  if data.method = some "message" then
    handle_incoming_message s data.params
  else if data.method = some "ping" then
    if s.ws then (s, [Action.sendFrame (OutFrame.pongResult data.id)]) else (s, [])
  else if data.method = some "result" then
    (s, [])
  else if data.method = some "error" then
    (s, [])
  else
    (s, [Action.emitMessage (Emitted.jsonrpc data.method)])

/-! ### Connection lifecycle -/

/-- Embedding of `disconnect(code=1000, reason="Normal closure")`: set
the manual-disconnect flag (never cleared anywhere in the source), close
and drop the socket if present, clear authentication, stop the keepalive
timer, force `Offline`. -/
def disconnect (s : PullState) (code : Nat) (reason : String) :
    PullState × List Action :=
  let s := { s with is_manual_disconnect := true }
  let cw :=
    if s.ws then ({ s with ws := false }, [Action.closeWs code reason])
    else (s, [])
  let s := { cw.1 with is_authenticated := false }
  let pt :=
    if s.ping_timer then ({ s with ping_timer := false }, [Action.stopPing])
    else (s, [])
  ({ pt.1 with status := PStatus.Offline }, cw.2 ++ pt.2)

/-- Embedding of `load_config`: adopt the captured `pull_config` (empty
dict = `none` fails), pick the `private` channel id, else the `shared`
one; returns the Python method's boolean. -/
def load_config (s : PullState) : PullState × Bool :=
  match s.pull_config with
  | some cfg =>
    let s := { s with config := some cfg }
    let s :=
      match cfg.channels.lookup "private" with
      | some ch => { s with channel_id := some ch.id }
      | none =>
        match cfg.channels.lookup "shared" with
        | some ch => { s with channel_id := some ch.id }
        | none => s
    (s, true)
  | none => (s, false)

/-- Embedding of `get_or_create_api_token`: the existing token if the
REST collaborator returns one, else a newly created one, else `None`. -/
def get_or_create_api_token (env : Env) : Option String :=
  match env.getTok with
  | some t => some t
  | none => env.createTok

/-- The channel-id block of `build_websocket_url`: when `channel_id` is
unset, adopt the config's `private` then `shared` channel id, else
generate `md5(user_id ++ timestamp) ++ ":private" ++ user_id`. -/
def ensure_channel_id (env : Env) (s : PullState) (cfg : PullConfig) : PullState :=
  match s.channel_id with
  | some _ => s
  | none =>
    match cfg.channels.lookup "private" with
    | some ch => { s with channel_id := some ch.id }
    | none =>
      match cfg.channels.lookup "shared" with
      | some ch => { s with channel_id := some ch.id }
      | none =>
        { s with channel_id := some (env.genHash ++ ":private" ++ toString s.user_id) }

/-- Embedding of `build_websocket_url`'s state effects: fails only when
no config is available (after one `load_config` retry); otherwise
ensures `channel_id` is set and succeeds.  The URL text itself carries
no further state and is not modelled. -/
def build_websocket_url (env : Env) (s : PullState) : PullState × Bool :=
  let s :=
    match s.config with
    | some _ => s
    | none => (load_config s).1
  match s.config with
  | none => (s, false)
  | some cfg => (ensure_channel_id env s cfg, true)

/-- Embedding of `schedule_reconnect(delay=None)`: no-op when not
running; gives up (debug signal only) once the attempt ceiling is
reached; otherwise a falsy `delay` (absent or 0) is replaced by
`min(5 * 2 ** reconnect_attempts, 60)`, the attempt counter is
incremented and a one-shot reconnect timer is armed. -/
def schedule_reconnect (s : PullState) (delay : Option Nat) :
    PullState × List Action :=
  if !s.running then (s, [])
  else if s.reconnect_attempts ≥ s.max_reconnect_attempts then
    (s, [Action.emitDebug "Max reconnection attempts reached"])
  else
    let d :=
      match delay with
      | some d => if d != 0 then d else min (5 * 2 ^ s.reconnect_attempts) 60
      | none => min (5 * 2 ^ s.reconnect_attempts) 60
    ({ s with reconnect_attempts := s.reconnect_attempts + 1 },
      [Action.armTimer d])

/-- Embedding of `connect`: first `disconnect()` any existing socket
(this is what sets `is_manual_disconnect` during automatic reconnects);
bail out when no config; build the URL (scheduling a reconnect on
failure, which cannot happen while a config is present); otherwise go
`Connecting`, emit the status and create the socket. -/
def connect (env : Env) (s : PullState) : PullState × List Action :=
  let pre :=
    if s.ws then disconnect s 1000 "Normal closure" else (s, [])
  match pre.1.config with
  | none => (pre.1, pre.2)
  | some _ =>
    let b := build_websocket_url env pre.1
    if !b.2 then
      let r := schedule_reconnect b.1 none
      (r.1, pre.2 ++ r.2)
    else
      let s := { b.1 with status := PStatus.Connecting }
      ({ s with ws := true },
        pre.2 ++ [Action.emitStatus false "Connecting..."])

/-- Embedding of `start_client`: ignore when already running; set
`running`; adopt the configuration (returning without connecting when
`load_config` fails, i.e. when no captured or synthesized config
exists); resolve the API token in token mode, degrading to cookie mode
when none is obtainable; then `connect`. -/
def start_client (env : Env) (s : PullState) : PullState × List Action :=
  if s.running then (s, [])
  else
    let s := { s with running := true }
    let lc := load_config s
    if !lc.2 then (lc.1, [])
    else
      let s :=
        if lc.1.use_api_token then
          match get_or_create_api_token env with
          | some t => { lc.1 with api_token := some t }
          | none => { lc.1 with use_api_token := false }
        else lc.1
      connect env s

/-- Embedding of `send_initial_subscription`: one `subscribe` frame with
a freshly allocated rpc id. -/
def send_initial_subscription (env : Env) (s : PullState) :
    PullState × List Action :=
  let (s, rid) := get_next_rpc_id s
  (s, [Action.sendFrame
        (OutFrame.subscribe s.channel_id s.user_id s.site_id env.now rid)])

/-- Embedding of `start_ping_timer`: stop a live keepalive timer, then
start a fresh 20 s periodic one. -/
def start_ping_timer (s : PullState) : PullState × List Action :=
  let acts := if s.ping_timer then [Action.stopPing] else []
  ({ s with ping_timer := true }, acts ++ [Action.startPing])

/-- Embedding of `on_open`: go `Online`, set the authenticated flag,
reset the reconnect attempt counter to 0, emit connection-status(true),
send the initial subscription, start the keepalive timer and emit a
debug line. -/
def on_open (env : Env) (s : PullState) : PullState × List Action :=
  let s := { s with
    status := PStatus.Online
    is_authenticated := true
    reconnect_attempts := 0 }
  let acts0 := [Action.emitStatus true "Connected to Bitrix"]
  let sub := send_initial_subscription env s
  let pt := start_ping_timer sub.1
  (pt.1, acts0 ++ sub.2 ++ pt.2 ++ [Action.emitDebug "Connected"])

/-- Embedding of `send_keepalive`: one `ping` frame, only while a socket
is present and authenticated. -/
def send_keepalive (env : Env) (s : PullState) : PullState × List Action :=
  if s.ws && s.is_authenticated then
    let (s, rid) := get_next_rpc_id s
    (s, [Action.sendFrame (OutFrame.keepalive env.now rid)])
  else (s, [])

/-- Embedding of `on_close(close_status_code, close_msg)`: clear the
authenticated flag, stop the keepalive timer, go `Offline`, emit
connection-status(false); schedule a reconnect only when still running,
the close code is not 1000 and the manual-disconnect flag is unset.  The
socket field is NOT cleared here. -/
def on_close (s : PullState) (close_status_code : Option Nat) :
    PullState × List Action :=
  let s := { s with is_authenticated := false }
  let pt :=
    if s.ping_timer then ({ s with ping_timer := false }, [Action.stopPing])
    else (s, [])
  let s := { pt.1 with status := PStatus.Offline }
  let acts := pt.2 ++ [Action.emitStatus false "Disconnected"]
  if s.running && close_status_code != some 1000 && !s.is_manual_disconnect then
    let r := schedule_reconnect s none
    (r.1, acts ++ r.2)
  else
    (s, acts)

/-- Embedding of `on_error(error)`: go `Offline` and emit
connection-status(false, "Error: ..." truncated to 100 characters); then
schedule a reconnect with the fixed delay 5 unless the error text
contains "401" or "403". -/
def on_error (s : PullState) (error : String) : PullState × List Action :=
  let s := { s with status := PStatus.Offline }
  let acts := [Action.emitStatus false ("Error: " ++ strTake error 100)]
  if !containsSub error "401" && !containsSub error "403" then
    let r := schedule_reconnect s (some 5)
    (r.1, acts ++ r.2)
  else
    (s, acts)

/-- Embedding of `reconnect` (the armed timer's target): `connect` only
while running. -/
def reconnect (env : Env) (s : PullState) : PullState × List Action :=
  if s.running then connect env s else (s, [])

/-- Embedding of `send_message(chat_id, text)`: refuse (returning
`false`, sending nothing) unless a socket is present and the
authenticated flag is set; otherwise send one `publish` frame —
channelList `[str(chat_id)]`, body `uad.shop.chat`/`newMessage`, author
`"User <user_id>"`, the message text and a timestamp — and return
`true`. -/
def send_message (env : Env) (s : PullState) (chat_id : Int) (text : String) :
    PullState × List Action × Bool :=
  if !s.ws || !s.is_authenticated then (s, [], false)
  else
    let (s, rid) := get_next_rpc_id s
    (s,
      [Action.sendFrame
        (OutFrame.publish [toString chat_id] "uad.shop.chat" "newMessage"
          ("User " ++ toString s.user_id) text env.now rid)],
      true)

/-- Embedding of `stop`: clear `running`, then `disconnect()`. -/
def stop (s : PullState) : PullState × List Action :=
  disconnect { s with running := false } 1000 "Normal closure"

/-! ### Event traces

A trace event is one callback delivery or public-API call on the client;
`step` runs its embedded handler, `run` folds a trace, concatenating the
actions in order. -/

/-- One externally triggered event on the client. -/
inductive Ev
  /-- Public API `start_client()`. -/
  | startClient
  /-- The websocket `on_open` callback. -/
  | openEv
  /-- The websocket `on_close(code, msg)` callback. -/
  | closeEv (code : Option Nat)
  /-- The websocket `on_error(error)` callback. -/
  | errorEv (error : String)
  /-- A decoded inbound JSON object delivered to `handle_json_message`. -/
  | jsonMsg (data : JsonMsg)
  /-- The one-shot reconnect timer fires (`reconnect`). -/
  | reconnectTimer
  /-- The periodic keepalive timer fires (`send_keepalive`). -/
  | pingTimer
  /-- Public API `send_message(chat_id, text)` (return value observed
  separately through `send_message`). -/
  | sendEv (chat_id : Int) (text : String)
  /-- Public API `disconnect()` with default arguments. -/
  | disconnectEv
  /-- Public API `stop()`. -/
  | stopEv
  deriving DecidableEq, Repr

/-- Run one event's handler. -/
def step (env : Env) (s : PullState) : Ev → PullState × List Action
  | Ev.startClient => start_client env s
  | Ev.openEv => on_open env s
  | Ev.closeEv c => on_close s c
  | Ev.errorEv e => on_error s e
  | Ev.jsonMsg d => handle_json_message s d
  | Ev.reconnectTimer => reconnect env s
  | Ev.pingTimer => send_keepalive env s
  | Ev.sendEv c t =>
    let r := send_message env s c t
    (r.1, r.2.1)
  | Ev.disconnectEv => disconnect s 1000 "Normal closure"
  | Ev.stopEv => stop s

/-- Fold a trace of events, concatenating the emitted actions. -/
def run (env : Env) (s : PullState) : List Ev → PullState × List Action
  | [] => (s, [])
  | e :: es =>
    let r1 := step env s e
    let r2 := run env r1.1 es
    (r2.1, r1.2 ++ r2.2)

/-! ### Observation helpers over action lists -/

/-- The rpc id of a counter-allocated outbound frame (`subscribe`,
keepalive `ping`, `ack`, `publish`); the `result: "pong"` reply echoes
the peer's id and is excluded. -/
def frameAllocId : OutFrame → Option Nat
  | OutFrame.subscribe _ _ _ _ i => some i
  | OutFrame.keepalive _ i => some i
  | OutFrame.pongResult _ => none
  | OutFrame.ack _ i => some i
  | OutFrame.publish _ _ _ _ _ _ i => some i

/-- The counter-allocated rpc id of an action, when it is a frame send. -/
def allocIdOf : Action → Option Nat
  | Action.sendFrame f => frameAllocId f
  | _ => none

/-- Counter-allocated rpc ids of the frames sent, in order. -/
def allocIds (acts : List Action) : List Nat :=
  acts.filterMap allocIdOf

/-- Is the action a delivery of a normalized module event to the
`message_received` handlers? -/
def isHandlerDelivery : Action → Bool
  | Action.emitMessage (Emitted.event _ _ _) => true
  | _ => false

/-- Number of normalized module events delivered to handlers. -/
def deliveredCount (acts : List Action) : Nat :=
  (acts.filter isHandlerDelivery).length

/-- The acknowledged mid of an action, when it is an `ack` frame send. -/
def ackMidOf : Action → Option String
  | Action.sendFrame (OutFrame.ack m _) => some m
  | _ => none

/-- The mids of the `ack` frames sent, in order. -/
def ackMids (acts : List Action) : List String :=
  acts.filterMap ackMidOf

/-- The delay of an action, when it arms a reconnect timer. -/
def armedDelayOf : Action → Option Nat
  | Action.armTimer d => some d
  | _ => none

/-- The delays (in seconds) of the reconnect timers armed, in order. -/
def armedDelays (acts : List Action) : List Nat :=
  acts.filterMap armedDelayOf

/-- Fold `handle_incoming_message` over a sequence of incoming `message`
RPC params, concatenating actions: a sequence of message deliveries. -/
def runMsgs (s : PullState) : List MsgParams → PullState × List Action
  | [] => (s, [])
  | p :: ps =>
    let r1 := handle_incoming_message s p
    let r2 := runMsgs r1.1 ps
    (r2.1, r1.2 ++ r2.2)

/-- The truthy mids of a message sequence, in order. -/
def truthyMids (ps : List MsgParams) : List String :=
  ps.filterMap fun p => if midTruthy p.mid then some (p.mid.getD "") else none

/-! ### Concrete fixtures used by counterexamples and witnesses -/

/-- An environment whose `bitrix_token.json` exists but holds no Pull
config (forcing synthesis). -/
def envTok : Env := { tokenFile := some {} }

/-- An environment with no `bitrix_token.json` at all. -/
def envNoFile : Env := {}

/-- A freshly constructed client for user 7 under `envTok`. -/
def client0 : PullState := initState envTok 7 "ap" false

/-- An incoming `message` RPC params carrying mid `m1` for module `im`. -/
def msgIm : MsgParams := { mid := some "m1", body := { module_id := "im", command := "x" } }

/-! ### General list helper lemmas -/

theorem takeLast_of_length_le {n : Nat} {l : List String} (h : l.length ≤ n) :
    takeLast n l = l := by
  simp [takeLast, Nat.sub_eq_zero_of_le h]

theorem length_takeLast (n : Nat) (l : List String) :
    (takeLast n l).length = min n l.length := by
  simp [takeLast]
  omega

theorem takeLast_eq_reverse_take (n : Nat) (l : List String) :
    takeLast n l = (l.reverse.take n).reverse := by
  rw [List.reverse_take]
  simp [takeLast]

theorem take_append_take (n : Nat) (a b : List String) :
    (a ++ b.take n).take n = (a ++ b).take n := by
  rw [List.take_append_eq_append_take, List.take_append_eq_append_take,
    List.take_take]
  congr 1
  exact congrArg b.take (Nat.min_eq_left (Nat.sub_le n a.length))

theorem takeLast_takeLast_append (n : Nat) (xs ys : List String) :
    takeLast n (takeLast n xs ++ ys) = takeLast n (xs ++ ys) := by
  rw [takeLast_eq_reverse_take n xs, takeLast_eq_reverse_take,
    takeLast_eq_reverse_take]
  simp only [List.reverse_append, List.reverse_reverse]
  rw [take_append_take]

theorem deliveredCount_append (a b : List Action) :
    deliveredCount (a ++ b) = deliveredCount a + deliveredCount b := by
  simp [deliveredCount, List.filter_append]

theorem ackMids_append (a b : List Action) :
    ackMids (a ++ b) = ackMids a ++ ackMids b := by
  simp [ackMids]

theorem armedDelays_append (a b : List Action) :
    armedDelays (a ++ b) = armedDelays a ++ armedDelays b := by
  simp [armedDelays]

theorem allocIds_append (a b : List Action) :
    allocIds (a ++ b) = allocIds a ++ allocIds b := by
  simp [allocIds]

/-! ### Structure of one incoming-message delivery -/

theorem dispatchModule_delivers_one (s : PullState) (m c : String) (p : PParams)
    (e : List (String × String)) :
    deliveredCount (dispatchModule s m c p e).2 = 1 := by
  unfold dispatchModule handle_uad_shop_chat handle_im_event handle_online_event
    handle_pull_event handle_generic_event
  repeat' split
  all_goals simp [deliveredCount, isHandlerDelivery]

theorem dispatchModule_no_acks (s : PullState) (m c : String) (p : PParams)
    (e : List (String × String)) :
    ackMids (dispatchModule s m c p e).2 = [] := by
  unfold dispatchModule handle_uad_shop_chat handle_im_event handle_online_event
    handle_pull_event handle_generic_event
  repeat' split
  all_goals simp [ackMids, ackMidOf]

theorem dispatchModule_keeps_ids (s : PullState) (m c : String) (p : PParams)
    (e : List (String × String)) :
    (dispatchModule s m c p e).1.lastMessageIds = s.lastMessageIds := by
  unfold dispatchModule handle_uad_shop_chat handle_im_event handle_online_event
    handle_pull_event handle_generic_event
  repeat' split
  all_goals rfl

theorem dispatchModule_keeps_counter (s : PullState) (m c : String) (p : PParams)
    (e : List (String × String)) :
    (dispatchModule s m c p e).1.rpc_id_counter = s.rpc_id_counter := by
  unfold dispatchModule handle_uad_shop_chat handle_im_event handle_online_event
    handle_pull_event handle_generic_event
  repeat' split
  all_goals rfl

theorem send_acknowledgment_keeps_ids (s : PullState) (m : String) :
    (send_acknowledgment s m).1.lastMessageIds = s.lastMessageIds := rfl

theorem handle_incoming_delivers_one (s : PullState) (p : MsgParams) :
    deliveredCount (handle_incoming_message s p).2 = 1 := by
  unfold handle_incoming_message
  cases h : midTruthy p.mid with
  | false =>
    simp only [h, Bool.false_eq_true, if_false]
    exact dispatchModule_delivers_one ..
  | true =>
    simp only [h, if_true, send_acknowledgment, get_next_rpc_id]
    rw [deliveredCount_append, dispatchModule_delivers_one]
    rfl

theorem handle_incoming_ids (s : PullState) (p : MsgParams)
    (h : s.lastMessageIds.length ≤ 10) :
    (handle_incoming_message s p).1.lastMessageIds
      = takeLast 10 (s.lastMessageIds ++ truthyMids [p]) := by
  cases hm : midTruthy p.mid with
  | false =>
    simp only [handle_incoming_message, hm, Bool.false_eq_true, if_false]
    rw [dispatchModule_keeps_ids]
    simp [truthyMids, hm, takeLast_of_length_le h]
  | true =>
    have htm : truthyMids [p] = [p.mid.getD ""] := by simp [truthyMids, hm]
    rw [htm]
    simp only [handle_incoming_message, hm, if_true]
    rw [send_acknowledgment_keeps_ids, dispatchModule_keeps_ids]
    by_cases hlen : (s.lastMessageIds ++ [p.mid.getD ""]).length > 10
    · rw [if_pos hlen]
    · rw [if_neg hlen]
      exact (takeLast_of_length_le (Nat.le_of_not_lt hlen)).symm

theorem handle_incoming_ids_le (s : PullState) (p : MsgParams)
    (h : s.lastMessageIds.length ≤ 10) :
    (handle_incoming_message s p).1.lastMessageIds.length ≤ 10 := by
  rw [handle_incoming_ids s p h, length_takeLast]
  omega

/-! ### Claim C1 — duplicate suppression and recent-id FIFO -/

/-- C1 amended: for any sequence of incoming `message` RPCs delivered to
any state whose recent-id list respects the capacity, EVERY receipt
(duplicate mids included — there is no duplicate check) is delivered to
the module handlers exactly once per receipt, and the recent-id sequence
`lastMessageIds` never exceeds capacity 10 with the oldest evicted
first: it always equals the last 10 truthy mids of the accumulated
history. -/
theorem c1_theorem (s : PullState) (ps : List MsgParams)
    (h : s.lastMessageIds.length ≤ 10) :
    deliveredCount (runMsgs s ps).2 = ps.length ∧
    (runMsgs s ps).1.lastMessageIds
      = takeLast 10 (s.lastMessageIds ++ truthyMids ps) ∧
    (runMsgs s ps).1.lastMessageIds.length ≤ 10 := by
  induction ps generalizing s with
  | nil =>
    refine ⟨rfl, ?_, ?_⟩
    · simp [runMsgs, truthyMids, takeLast_of_length_le h]
    · simpa [runMsgs] using h
  | cons p rest ih =>
    have h1 := handle_incoming_ids s p h
    have h1le := handle_incoming_ids_le s p h
    obtain ⟨ihc, ihids, ihle⟩ := ih (handle_incoming_message s p).1 h1le
    refine ⟨?_, ?_, ?_⟩
    · simp only [runMsgs, deliveredCount_append, handle_incoming_delivers_one, ihc,
        List.length_cons]
      omega
    · show (runMsgs (handle_incoming_message s p).1 rest).1.lastMessageIds = _
      rw [ihids, h1]
      have : truthyMids (p :: rest) = truthyMids [p] ++ truthyMids rest := by
        cases hm : midTruthy p.mid <;> simp [truthyMids, hm]
      rw [this, takeLast_takeLast_append, List.append_assoc]
    · exact ihle

/-- C1 counterexample: delivering the same `message` RPC (mid `m1`)
twice to a fresh client delivers it to the module handlers twice, and
the second receipt — whose mid is already the sole entry of
`lastMessageIds` — is processed in full (dispatched and acknowledged,
and appended again), refuting the claim that a mid already present in
the recent-id set is discarded with no further processing and that each
distinct mid is delivered exactly once. -/
theorem c1_counterexample :
    (handle_incoming_message client0 msgIm).1.lastMessageIds = ["m1"] ∧
    deliveredCount (handle_incoming_message
      (handle_incoming_message client0 msgIm).1 msgIm).2 = 1 ∧
    ackMids (handle_incoming_message
      (handle_incoming_message client0 msgIm).1 msgIm).2 = ["m1"] ∧
    deliveredCount (runMsgs client0 [msgIm, msgIm]).2 = 2 := by
  decide

/-- C1 witness: the amended theorem applied to the fresh client and the
duplicated two-message sequence. -/
theorem c1_witness :
    deliveredCount (runMsgs client0 [msgIm, msgIm]).2 = 2 ∧
    (runMsgs client0 [msgIm, msgIm]).1.lastMessageIds
      = takeLast 10 (client0.lastMessageIds ++ truthyMids [msgIm, msgIm]) ∧
    (runMsgs client0 [msgIm, msgIm]).1.lastMessageIds.length ≤ 10 := by
  have h := c1_theorem client0 [msgIm, msgIm] (by decide)
  simpa using h

/-! ### Claim C2 — ack symmetry -/

/-- C2 counterexample: a duplicate receipt of mid `m1` (already the sole
entry of `lastMessageIds`) produces one more ack frame instead of the
claimed zero: two receipts yield two acks for `m1`. -/
theorem c2_counterexample :
    (handle_incoming_message client0 msgIm).1.lastMessageIds = ["m1"] ∧
    ackMids (runMsgs client0 [msgIm, msgIm]).2 = ["m1", "m1"] := by
  decide

/-- C2 amended: every incoming `message` RPC carrying a (truthy) mid —
whether or not that mid was seen before — produces exactly one outbound
ack frame referencing that mid, sent after dispatch (it is the last
action of the receipt), regardless of which handler matched; a message
without a truthy mid produces zero acks. -/
theorem c2_theorem (s : PullState) (p : MsgParams) :
    ackMids (handle_incoming_message s p).2
      = (if midTruthy p.mid then [p.mid.getD ""] else []) ∧
    (midTruthy p.mid = true →
      (handle_incoming_message s p).2.getLast?
        = some (Action.sendFrame
            (OutFrame.ack (p.mid.getD "") (s.rpc_id_counter + 1)))) := by
  constructor
  · unfold handle_incoming_message
    cases hm : midTruthy p.mid with
    | false =>
      simp only [hm, Bool.false_eq_true, if_false]
      exact dispatchModule_no_acks ..
    | true =>
      simp only [hm, if_true, send_acknowledgment, get_next_rpc_id]
      rw [ackMids_append, dispatchModule_no_acks]
      simp [ackMids, ackMidOf, dispatchModule_keeps_counter]
  · intro hm
    unfold handle_incoming_message
    simp only [hm, if_true, send_acknowledgment, get_next_rpc_id]
    rw [List.getLast?_concat]
    rw [dispatchModule_keeps_counter]

/-- C2 witness: the amended theorem applied to the fresh client and the
mid-`m1` message. -/
theorem c2_witness :
    ackMids (handle_incoming_message client0 msgIm).2 = ["m1"] ∧
    (handle_incoming_message client0 msgIm).2.getLast?
      = some (Action.sendFrame (OutFrame.ack "m1" 1)) := by
  have h := c2_theorem client0 msgIm
  exact ⟨by simpa using h.1, by simpa using h.2 (by decide)⟩

/-! ### Claim C3 — configuration resolution -/

/-- C3 counterexample: when `bitrix_token.json` is missing, resolution
does NOT produce a PullConfig — `load_auth_data` returns the empty
dictionary — and `start_client` sets `running` but returns after the
failed `load_config` without connecting: no state transition out of
`Offline`, no socket, no actions at all. -/
theorem c3_counterexample :
    (load_auth_data envNoFile).pull_config = none ∧
    (start_client envNoFile (initState envNoFile 7 "ap" false)).1.running = true ∧
    (start_client envNoFile (initState envNoFile 7 "ap" false)).1.status
      = PStatus.Offline ∧
    (start_client envNoFile (initState envNoFile 7 "ap" false)).1.ws = false ∧
    (start_client envNoFile (initState envNoFile 7 "ap" false)).2 = [] := by
  decide

/-- C3 amended: whenever the credential file `bitrix_token.json` exists
(with ANY contents — in particular empty or lacking a Pull config, in
which case a default websocket URL and a channel descriptor synthesized
from userId, timestamp and a random salt are used), resolution produces
a PullConfig and `start_client` proceeds to connect (state `Connecting`,
socket created, connecting status emitted); when the file is missing,
resolution yields the empty bundle and `start_client` refuses to
connect. -/
theorem build_url_ok (env : Env) (s : PullState) (cfg : PullConfig)
    (hcfg : s.config = some cfg) :
    build_websocket_url env s = (ensure_channel_id env s cfg, true) := by
  unfold build_websocket_url
  simp only [hcfg]

theorem connect_proceeds (env : Env) (s : PullState) (cfg : PullConfig)
    (hws : s.ws = false) (hcfg : s.config = some cfg) :
    (connect env s).1.status = PStatus.Connecting ∧
    (connect env s).1.ws = true ∧
    (connect env s).2 = [Action.emitStatus false "Connecting..."] := by
  unfold connect
  rw [hws]
  simp only [Bool.false_eq_true, if_false, hcfg, build_url_ok env s cfg hcfg]
  simp

theorem load_config_keeps (t : PullState) :
    (load_config t).1.ws = t.ws ∧ (load_config t).1.rpc_id_counter = t.rpc_id_counter := by
  unfold load_config
  repeat' split
  all_goals simp

theorem load_config_ok (t : PullState) (cfg : PullConfig)
    (h : t.pull_config = some cfg) :
    (load_config t).2 = true ∧ (load_config t).1.config = some cfg := by
  unfold load_config
  rw [h]
  repeat' split
  all_goals simp_all

theorem start_client_connects (env : Env) (s : PullState) (cfg : PullConfig)
    (hrun : s.running = false) (hcfg : s.pull_config = some cfg)
    (hws : s.ws = false) :
    (start_client env s).1.status = PStatus.Connecting ∧
    (start_client env s).1.ws = true ∧
    Action.emitStatus false "Connecting..." ∈ (start_client env s).2 := by
  have key : ∀ t : PullState, t.ws = false → t.config = some cfg →
      (connect env t).1.status = PStatus.Connecting ∧
      (connect env t).1.ws = true ∧
      Action.emitStatus false "Connecting..." ∈ (connect env t).2 := by
    intro t htw htc
    obtain ⟨h1, h2, h3⟩ := connect_proceeds env t cfg htw htc
    exact ⟨h1, h2, by rw [h3]; exact List.mem_singleton.mpr rfl⟩
  obtain ⟨hk1, -⟩ := load_config_keeps { s with running := true }
  obtain ⟨ho1, ho2⟩ := load_config_ok { s with running := true } cfg (by simpa using hcfg)
  unfold start_client
  rw [hrun]
  simp only [Bool.false_eq_true, if_false]
  set t := (load_config { s with running := true }).1 with ht
  rw [ho1]
  simp only [Bool.not_true, Bool.false_eq_true, if_false]
  have htw : t.ws = false := by rw [hk1]; simpa using hws
  repeat' split
  all_goals exact key _ (by simpa using htw) (by simpa using ho2)

theorem c3_theorem (env : Env) (tf : TokenFileData) (uid : Int) (site : String)
    (tok : Bool) (h : env.tokenFile = some tf) :
    (load_auth_data env).pull_config.isSome = true ∧
    (start_client env (initState env uid site tok)).1.status
      = PStatus.Connecting ∧
    (start_client env (initState env uid site tok)).1.ws = true ∧
    Action.emitStatus false "Connecting..."
      ∈ (start_client env (initState env uid site tok)).2 := by
  have hload : ∃ cfg, (load_auth_data env).pull_config = some cfg := by
    unfold load_auth_data
    rw [h]
    rcases hf : findPullConfig tf.local_storage with _ | cfg <;> simp [hf]
  obtain ⟨cfg, hcfg⟩ := hload
  have hinit : (initState env uid site tok).pull_config
      = (load_auth_data env).pull_config := rfl
  obtain ⟨h1, h2, h3⟩ := start_client_connects env (initState env uid site tok) cfg
    rfl (by rw [hinit, hcfg]) rfl
  exact ⟨by rw [hcfg]; rfl, h1, h2, h3⟩

/-- C3 witness: the amended theorem applied to an existing token file
with empty contents. -/
theorem c3_witness :
    (load_auth_data envTok).pull_config.isSome = true ∧
    (start_client envTok (initState envTok 7 "ap" false)).1.status
      = PStatus.Connecting ∧
    (start_client envTok (initState envTok 7 "ap" false)).1.ws = true ∧
    Action.emitStatus false "Connecting..."
      ∈ (start_client envTok (initState envTok 7 "ap" false)).2 :=
  c3_theorem envTok {} 7 "ap" false rfl

/-! ### Claim C4 — reconnect on every non-normal close -/

/-- A trace with one full reconnect cycle: start, open, abnormal close
(schedules the first reconnect), the reconnect timer firing — whose
`connect()` tears down the stale socket via `disconnect()`, permanently
setting `is_manual_disconnect` — and a second successful open. -/
def c4Trace : List Ev :=
  [Ev.startClient, Ev.openEv, Ev.closeEv (some 1006), Ev.reconnectTimer, Ev.openEv]

/-- C4: the claim is the code's own evident intent (the flag is named
`is_manual_disconnect` and guards the "Reconnect if not manual
disconnect" branch), but the code violates it: after one reconnect cycle
the flag is stuck `true` — `connect()` called `disconnect()` on the
stale socket and nothing ever clears the flag — so a further abnormal
close (code 1006) while running, with the attempt ceiling far away and
with `stop()`/`disconnect()` never called by the owner, schedules NO
reconnect; the same close on the first cycle did schedule one (delay 5). -/
theorem c4_failing_trace :
    (run envTok client0 c4Trace).1.running = true ∧
    (run envTok client0 c4Trace).1.reconnect_attempts = 0 ∧
    (run envTok client0 c4Trace).1.is_manual_disconnect = true ∧
    armedDelays (step envTok (run envTok client0 c4Trace).1
      (Ev.closeEv (some 1006))).2 = [] ∧
    armedDelays (step envTok (run envTok client0 [Ev.startClient, Ev.openEv]).1
      (Ev.closeEv (some 1006))).2 = [5] := by
  decide

/-! ### Claim C5 — ping-wait ("stuck connection") supervision

The source under `src/` only DECLARES this mechanism: `__init__` creates
the `ping_wait_timeout` slot and `PING_TIMEOUT = 10`, and
`pull_constants.py` defines the distinguished close code
`CloseReasons.STUCK`; no code in `src/` ever arms or fires the timeout.
The deciding code is not under `src/`, so the supervisor itself is
modelled from the spec (§4.5) and checked against it, reusing the
source's constants and `schedule_reconnect`. -/

/-- The `PING_TIMEOUT` constant from `__init__` (seconds). -/
def PING_TIMEOUT : Nat := 10

/-- Modelled from the spec: the ping-wait window, ≈2× the expected
server ping interval, i.e. ~20 s (the arming/firing code is missing from
src; only the `ping_wait_timeout` slot and `CloseReasons.STUCK` are
declared there). -/
def PING_WAIT : Nat := 2 * PING_TIMEOUT

/-- Modelled from the spec: the ping-wait deadline after qualifying
traffic (any inbound ping frame or any message) at time `t` — the
timeout is reset to expire `PING_WAIT` seconds later. -/
def ping_wait_deadline (t : Nat) : Nat := t + PING_WAIT

/-- Modelled from the spec: the ping-wait timeout check at time `t`.
When the deadline has passed with no qualifying traffic, the connection
is declared stuck: force-close with the distinguished `STUCK` close code
and schedule a reconnect (through the source's `schedule_reconnect`);
otherwise nothing happens. -/
def ping_wait_check (s : PullState) (deadline t : Nat) :
    PullState × List Action :=
  if deadline < t then
    let r := schedule_reconnect s none
    (r.1, Action.closeWs CloseReasons.STUCK "Stuck connection" :: r.2)
  else
    (s, [])

/-- C5 (settled against the spec-model): after qualifying traffic at
time `t0`, a check at any time `t` beyond `t0 + 20` force-closes with
the `STUCK` code and schedules a reconnect (the client still running and
below the attempt ceiling); any inbound ping or message at time `u`
resets the window to `u + 20`, and a check at or before the refreshed
deadline does nothing. -/
theorem c5_theorem (s : PullState) (t0 t u : Nat)
    (hrun : s.running = true)
    (hatt : s.reconnect_attempts < s.max_reconnect_attempts)
    (hlate : ping_wait_deadline t0 < t) :
    (ping_wait_check s (ping_wait_deadline t0) t).2
      = [Action.closeWs CloseReasons.STUCK "Stuck connection",
         Action.armTimer (min (5 * 2 ^ s.reconnect_attempts) 60)] ∧
    ping_wait_deadline u = u + 2 * PING_TIMEOUT ∧
    (∀ t2, t2 ≤ ping_wait_deadline u →
      (ping_wait_check s (ping_wait_deadline u) t2).2 = []) := by
  refine ⟨?_, rfl, ?_⟩
  · unfold ping_wait_check schedule_reconnect
    rw [if_pos hlate, hrun]
    simp [Nat.not_le_of_lt hatt]
  · intro t2 h2
    unfold ping_wait_check
    rw [if_neg (Nat.not_lt_of_le h2)]

/-- C5 witness: traffic at 0, silence until a check at 21 → stuck close
and a 5 s reconnect; traffic at 30 resets the deadline to 50 and a check
at 50 does nothing. -/
theorem c5_witness :
    (ping_wait_check { client0 with running := true }
        (ping_wait_deadline 0) 21).2
      = [Action.closeWs CloseReasons.STUCK "Stuck connection",
         Action.armTimer 5] ∧
    ping_wait_deadline 30 = 50 ∧
    (ping_wait_check { client0 with running := true }
        (ping_wait_deadline 30) 50).2 = [] := by
  obtain ⟨h1, _, h3⟩ := c5_theorem { client0 with running := true } 0 21 30
    rfl (by decide) (by decide)
  exact ⟨by simpa using h1, by decide, h3 50 (by decide)⟩

/-! ### Claim C6 — channel replacement -/

/-- The injected RPC from the claim's scenario. -/
def chReplacedMsg : JsonMsg :=
  { method := some "message"
    params := { body := { module_id := "pull", command := "channel_replaced"
                          params := { channel_id := some "NEWID" } } } }

/-- C6 counterexample: the injected `channel_replaced` RPC does make the
stored channel id `"NEWID"`, but NO reconnect is scheduled (no timer is
armed at all), refuting the "schedules an immediate reconnect (delay ≈
1 s)" half of the claim. -/
theorem c6_counterexample :
    (handle_json_message client0 chReplacedMsg).1.channel_id = some "NEWID" ∧
    armedDelays (handle_json_message client0 chReplacedMsg).2 = [] := by
  decide

/-- C6 amended: from ANY client state, the injected `channel_replaced`
RPC makes the stored channel id `"NEWID"` and emits the normalized
`pull.channel_replaced` event — nothing else: in particular no reconnect
is scheduled and no frame is sent (the RPC carries no mid, so no ack). -/
theorem c6_theorem (s : PullState) :
    (handle_json_message s chReplacedMsg).1.channel_id = some "NEWID" ∧
    (handle_json_message s chReplacedMsg).2
      = [Action.emitMessage (Emitted.event "pull.channel_replaced"
          { channel_id := some "NEWID" } [])] := by
  have hlow : strLower "pull" = "pull" := by decide
  have h1 : ("pull" : String) ≠ "uad.shop.chat" := by decide
  have h2 : ("pull" : String) ≠ "im" := by decide
  have h3 : ("pull" : String) ≠ "online" := by decide
  have h4 : ("NEWID" : String).isEmpty = false := by decide
  unfold handle_json_message chReplacedMsg
  simp only [reduceCtorEq, Option.some.injEq, reduceIte, if_true]
  unfold handle_incoming_message dispatchModule handle_pull_event
  simp [midTruthy, hlow, h1, h2, h3, h4]

/-! ### Claim C7 — error handling -/

/-- A running client with two failed attempts behind it. -/
def erroringState : PullState := { client0 with running := true, reconnect_attempts := 2 }

/-- C7 counterexample: a non-auth socket error on a running client with
`attemptCount = 2` schedules a reconnect with the FIXED delay 5 — not
the default exponential-backoff delay `min(5·2^2, 60) = 20` the claim
requires. -/
theorem c7_counterexample :
    armedDelays (on_error erroringState "connection reset by peer").2 = [5] ∧
    min (5 * 2 ^ erroringState.reconnect_attempts) 60 = 20 := by
  decide

/-- C7 amended: on a WebSocket error the client goes `Offline` and emits
connection-status(false, "Error: ..."); when the error text contains a
401 or 403 signature no reconnect is scheduled; for every other error a
reconnect is scheduled with the FIXED delay of 5 seconds (not the
exponential default), provided the client is running and below the
attempt ceiling. -/
theorem c7_theorem (s : PullState) (err : String)
    (hrun : s.running = true)
    (hatt : s.reconnect_attempts < s.max_reconnect_attempts) :
    (on_error s err).1.status = PStatus.Offline ∧
    (on_error s err).2
      = Action.emitStatus false ("Error: " ++ strTake err 100) ::
        (if containsSub err "401" || containsSub err "403" then []
         else [Action.armTimer 5]) := by
  unfold on_error schedule_reconnect
  rw [hrun]
  cases h1 : containsSub err "401" <;> cases h2 : containsSub err "403" <;>
    simp [h1, h2, Nat.not_le_of_lt hatt]

/-- C7 witness: the amended theorem at the running two-attempt client,
once for a transient error (fixed 5 s reconnect) and once for a 401
error (no reconnect). -/
theorem c7_witness :
    ((on_error erroringState "connection reset by peer").1.status
        = PStatus.Offline ∧
      (on_error erroringState "connection reset by peer").2
        = [Action.emitStatus false
            ("Error: " ++ strTake "connection reset by peer" 100),
           Action.armTimer 5]) ∧
    (on_error erroringState "HTTP 401 Unauthorized").2
      = [Action.emitStatus false
          ("Error: " ++ strTake "HTTP 401 Unauthorized" 100)] := by
  obtain ⟨ha, hb⟩ := c7_theorem erroringState "connection reset by peer"
    rfl (by decide)
  obtain ⟨-, hd⟩ := c7_theorem erroringState "HTTP 401 Unauthorized"
    rfl (by decide)
  refine ⟨⟨ha, ?_⟩, ?_⟩
  · rw [hb]
    norm_num [show containsSub "connection reset by peer" "401" = false by decide,
      show containsSub "connection reset by peer" "403" = false by decide]
  · rw [hd]
    norm_num [show containsSub "HTTP 401 Unauthorized" "401" = true by decide]

/-! ### Claim C8 — scheduleReconnect -/

/-- C8 counterexample: a caller-supplied delay of 0 seconds is treated
as absent (`if not delay` is true for 0 in Python), so the armed timer
uses the exponential delay `min(5·2^1, 60) = 10`, not the given 0 —
refuting "with delay = ... unless a specific delay is given" for the
specific given delay 0. -/
theorem c8_counterexample :
    armedDelays (schedule_reconnect
      { client0 with running := true, reconnect_attempts := 1 } (some 0)).2
      = [10] ∧ (10 : Nat) ≠ 0 := by
  decide

/-- C8 amended: `schedule_reconnect` is a no-op when not running;
schedules nothing (debug signal only) once `attemptCount ≥ maxAttempts`
(10); otherwise increments `attemptCount` and arms a one-shot reconnect
timer whose delay is the given delay when a NONZERO one is given, and
`min(5·2^n, 60)` with `n` the attempt count at call time otherwise (a
given delay of 0 is treated as absent); `attemptCount` is reset to 0 on
every successful open. -/
theorem c8_theorem (s : PullState) (d : Option Nat) (env : Env) :
    (s.running = false → schedule_reconnect s d = (s, [])) ∧
    (s.running = true → s.max_reconnect_attempts ≤ s.reconnect_attempts →
      schedule_reconnect s d
        = (s, [Action.emitDebug "Max reconnection attempts reached"])) ∧
    (s.running = true → s.reconnect_attempts < s.max_reconnect_attempts →
      ∀ v, d = some v → v ≠ 0 →
        schedule_reconnect s d
          = ({ s with reconnect_attempts := s.reconnect_attempts + 1 },
             [Action.armTimer v])) ∧
    (s.running = true → s.reconnect_attempts < s.max_reconnect_attempts →
      (d = none ∨ d = some 0) →
        schedule_reconnect s d
          = ({ s with reconnect_attempts := s.reconnect_attempts + 1 },
             [Action.armTimer (min (5 * 2 ^ s.reconnect_attempts) 60)])) ∧
    (on_open env s).1.reconnect_attempts = 0 := by
  refine ⟨?_, ?_, ?_, ?_, rfl⟩
  · intro hrun
    unfold schedule_reconnect
    rw [hrun]
    rfl
  · intro hrun hceil
    unfold schedule_reconnect
    rw [hrun]
    simp [Nat.not_lt_of_le hceil, Nat.le_of_not_lt, hceil]
  · intro hrun hatt v hv hnz
    unfold schedule_reconnect
    rw [hrun, hv]
    simp [Nat.not_le_of_lt hatt, hnz]
  · intro hrun hatt hd
    unfold schedule_reconnect
    rw [hrun]
    rcases hd with hd | hd <;> rw [hd] <;> simp [Nat.not_le_of_lt hatt]

/-- C8 witness: the amended theorem at a running one-attempt client —
not running is a no-op, a given delay of 7 is used verbatim, an absent
delay uses the exponential 10, and a fresh open resets the counter. -/
theorem c8_witness :
    schedule_reconnect client0 (some 7) = (client0, []) ∧
    schedule_reconnect { client0 with running := true, reconnect_attempts := 1 }
        (some 7)
      = ({ client0 with running := true, reconnect_attempts := 2 },
         [Action.armTimer 7]) ∧
    schedule_reconnect { client0 with running := true, reconnect_attempts := 1 }
        none
      = ({ client0 with running := true, reconnect_attempts := 2 },
         [Action.armTimer 10]) ∧
    (on_open envTok { client0 with running := true, reconnect_attempts := 1 }).1.reconnect_attempts
      = 0 := by
  refine ⟨(c8_theorem client0 (some 7) envTok).1 rfl, ?_, ?_, ?_⟩
  · have h := (c8_theorem { client0 with running := true, reconnect_attempts := 1 }
      (some 7) envTok).2.2.1 rfl (by decide) 7 rfl (by decide)
    simpa using h
  · have h := (c8_theorem { client0 with running := true, reconnect_attempts := 1 }
      none envTok).2.2.2.1 rfl (by decide) (Or.inl rfl)
    simpa using h
  · exact (c8_theorem { client0 with running := true, reconnect_attempts := 1 }
      none envTok).2.2.2.2

/-! ### Claim C9 — send -/

/-- A trace leaving the client NOT Online: start, open, then a transient
socket error (`on_error` sets `status = Offline` but — unlike `on_close`
— does not clear `is_authenticated` or the socket). -/
def tr9 : List Ev := [Ev.startClient, Ev.openEv, Ev.errorEv "connection reset by peer"]

/-- C9 counterexample: after `tr9` the connection status is `Offline`
(not Online), yet `send(42, "hello")` returns `true` and sends a publish
frame — because `send_message` tests socket presence and the
authenticated flag, not the `Online` state. -/
theorem c9_counterexample :
    (run envTok client0 tr9).1.status = PStatus.Offline ∧
    (send_message envTok (run envTok client0 tr9).1 42 "hello").2.2 = true ∧
    (send_message envTok (run envTok client0 tr9).1 42 "hello").2.1
      = [Action.sendFrame (OutFrame.publish ["42"] "uad.shop.chat" "newMessage"
          "User 7" "hello" 0 2)] := by
  decide

/-- C9 amended: `send(chatId, text)` returns a boolean and never throws;
when the socket object is present AND the authenticated flag is set
(this is the code's guard — it usually coincides with `Online` but
survives an error event, where the status is already `Offline`), it
sends exactly one outbound frame with method `publish`,
`params.channelList = [str(chatId)]` and `params.body.params.message =
text`, and returns `true`; otherwise it returns `false` and sends
nothing. -/
theorem c9_theorem (env : Env) (s : PullState) (chat_id : Int) (text : String) :
    send_message env s chat_id text
      = if s.ws && s.is_authenticated then
          ({ s with rpc_id_counter := s.rpc_id_counter + 1 },
           [Action.sendFrame (OutFrame.publish [toString chat_id] "uad.shop.chat"
              "newMessage" ("User " ++ toString s.user_id) text env.now
              (s.rpc_id_counter + 1))],
           true)
        else (s, [], false) := by
  unfold send_message get_next_rpc_id
  cases hw : s.ws <;> cases ha : s.is_authenticated <;> simp [hw, ha]

/-! ### Claim C10 — the shared rpc id counter -/

/-- The per-step allocation contract: the counter advances by exactly
the number of counter-allocated frames sent, and those frames carry the
consecutive ids starting right after the previous counter value. -/
def CounterSpec (s : PullState) (r : PullState × List Action) : Prop :=
  r.1.rpc_id_counter = s.rpc_id_counter + (allocIds r.2).length ∧
  allocIds r.2 = List.range' (s.rpc_id_counter + 1) (allocIds r.2).length

theorem counterSpec_of_none {s : PullState} {r : PullState × List Action}
    (h1 : r.1.rpc_id_counter = s.rpc_id_counter) (h2 : allocIds r.2 = []) :
    CounterSpec s r := by
  constructor <;> simp [h1, h2]

theorem counterSpec_of_one {s : PullState} {r : PullState × List Action}
    (h1 : r.1.rpc_id_counter = s.rpc_id_counter + 1)
    (h2 : allocIds r.2 = [s.rpc_id_counter + 1]) :
    CounterSpec s r := by
  constructor <;> simp [h1, h2, List.range']

theorem alloc_disconnect (s : PullState) (c : Nat) (r : String) :
    (disconnect s c r).1.rpc_id_counter = s.rpc_id_counter ∧
    allocIds (disconnect s c r).2 = [] := by
  unfold disconnect
  cases hw : s.ws <;> cases hp : s.ping_timer <;>
    simp [hw, hp, allocIds, allocIdOf]

theorem alloc_schedule (s : PullState) (d : Option Nat) :
    (schedule_reconnect s d).1.rpc_id_counter = s.rpc_id_counter ∧
    allocIds (schedule_reconnect s d).2 = [] := by
  unfold schedule_reconnect
  cases hr : s.running
  · simp [hr, allocIds, allocIdOf]
  · by_cases hc : s.reconnect_attempts ≥ s.max_reconnect_attempts <;>
      cases d <;> simp [hr, hc, allocIds, allocIdOf]

theorem counter_load_config (s : PullState) :
    (load_config s).1.rpc_id_counter = s.rpc_id_counter := by
  unfold load_config
  repeat' split
  all_goals rfl

theorem counter_ensure_channel (env : Env) (t : PullState) (cfg : PullConfig) :
    (ensure_channel_id env t cfg).rpc_id_counter = t.rpc_id_counter := by
  unfold ensure_channel_id
  repeat' split
  all_goals rfl

theorem counter_build_url (env : Env) (s : PullState) :
    (build_websocket_url env s).1.rpc_id_counter = s.rpc_id_counter := by
  unfold build_websocket_url
  rcases h1 : s.config with _ | cfg
  · simp only [h1]
    rcases h2 : (load_config s).1.config with _ | cfg2 <;>
      simp [h2, counter_ensure_channel, counter_load_config]
  · simp only [h1]
    simp [counter_ensure_channel]

theorem alloc_connect (env : Env) (s : PullState) :
    (connect env s).1.rpc_id_counter = s.rpc_id_counter ∧
    allocIds (connect env s).2 = [] := by
  unfold connect
  cases hw : s.ws with
  | false =>
    simp only [Bool.false_eq_true, if_false]
    rcases hc : s.config with _ | cfg
    · rcases h2 : (build_websocket_url env s).2 with _ | _ <;>
        simp [hc, h2, counter_build_url, alloc_schedule, allocIds_append,
          allocIds, allocIdOf]
    · simp [hc, build_url_ok env s cfg hc, counter_ensure_channel, allocIds, allocIdOf]
  | true =>
    have hd := alloc_disconnect s 1000 "Normal closure"
    simp only [hw, if_true]
    rcases hc : (disconnect s 1000 "Normal closure").1.config with _ | cfg
    · simp only [hc]
      exact hd
    · simp only [hc, build_url_ok env _ cfg hc, Bool.not_true, Bool.false_eq_true,
        if_false]
      refine ⟨by simp [counter_ensure_channel, hd.1], ?_⟩
      rw [allocIds_append, hd.2]
      rfl

theorem alloc_start_client (env : Env) (s : PullState) :
    (start_client env s).1.rpc_id_counter = s.rpc_id_counter ∧
    allocIds (start_client env s).2 = [] := by
  unfold start_client
  cases hr : s.running with
  | true => simp [hr, allocIds, allocIdOf]
  | false =>
    simp only [hr, Bool.false_eq_true, if_false]
    cases hlc : (load_config { s with running := true }).2 with
    | false =>
      simp [hlc, counter_load_config, allocIds, allocIdOf]
    | true =>
      simp only [hlc, Bool.not_true, Bool.false_eq_true, if_false]
      have hcl := counter_load_config { s with running := true }
      repeat' split
      all_goals
        exact ⟨by rw [(alloc_connect env _).1]; simp [hcl], (alloc_connect env _).2⟩

theorem alloc_on_close (s : PullState) (c : Option Nat) :
    (on_close s c).1.rpc_id_counter = s.rpc_id_counter ∧
    allocIds (on_close s c).2 = [] := by
  unfold on_close
  cases hp : s.ping_timer <;>
    simp only [hp, Bool.false_eq_true, if_false, if_true] <;>
    split <;>
    refine ⟨?_, ?_⟩ <;>
    simp only [allocIds_append, alloc_schedule] <;>
    simp [allocIds, allocIdOf]

theorem alloc_on_error (s : PullState) (e : String) :
    (on_error s e).1.rpc_id_counter = s.rpc_id_counter ∧
    allocIds (on_error s e).2 = [] := by
  unfold on_error
  split <;>
    refine ⟨?_, ?_⟩ <;>
    simp only [allocIds_append, alloc_schedule] <;>
    simp [allocIds, allocIdOf]

theorem dispatchModule_no_frames (s : PullState) (m c : String) (p : PParams)
    (e : List (String × String)) :
    allocIds (dispatchModule s m c p e).2 = [] := by
  unfold dispatchModule handle_uad_shop_chat handle_im_event handle_online_event
    handle_pull_event handle_generic_event
  repeat' split
  all_goals simp [allocIds, allocIdOf]

theorem counterSpec_handle_incoming (s : PullState) (p : MsgParams) :
    CounterSpec s (handle_incoming_message s p) := by
  unfold handle_incoming_message
  cases hm : midTruthy p.mid with
  | false =>
    simp only [hm, Bool.false_eq_true, if_false]
    exact counterSpec_of_none (dispatchModule_keeps_counter ..)
      (dispatchModule_no_frames ..)
  | true =>
    simp only [hm, if_true, send_acknowledgment, get_next_rpc_id]
    refine counterSpec_of_one ?_ ?_
    · simp [dispatchModule_keeps_counter]
    · rw [allocIds_append, dispatchModule_no_frames, dispatchModule_keeps_counter]
      rfl

theorem counterSpec_step (env : Env) (s : PullState) (e : Ev) :
    CounterSpec s (step env s e) := by
  cases e with
  | startClient =>
    exact counterSpec_of_none (alloc_start_client env s).1 (alloc_start_client env s).2
  | openEv =>
    refine counterSpec_of_one ?_ ?_
    · rfl
    · simp only [step, on_open, send_initial_subscription, start_ping_timer,
        get_next_rpc_id]
      split <;> simp [allocIds_append, allocIds, allocIdOf, frameAllocId]
  | closeEv c =>
    exact counterSpec_of_none (alloc_on_close s c).1 (alloc_on_close s c).2
  | errorEv err =>
    exact counterSpec_of_none (alloc_on_error s err).1 (alloc_on_error s err).2
  | jsonMsg d =>
    show CounterSpec s (handle_json_message s d)
    unfold handle_json_message
    repeat' split
    · exact counterSpec_handle_incoming s d.params
    all_goals exact counterSpec_of_none rfl (by simp [allocIds, allocIdOf, frameAllocId])
  | reconnectTimer =>
    show CounterSpec s (reconnect env s)
    unfold reconnect
    split
    · exact counterSpec_of_none (alloc_connect env s).1 (alloc_connect env s).2
    · exact counterSpec_of_none rfl rfl
  | pingTimer =>
    show CounterSpec s (send_keepalive env s)
    unfold send_keepalive
    split
    · exact counterSpec_of_one rfl (by simp [get_next_rpc_id, allocIds, allocIdOf, frameAllocId])
    · exact counterSpec_of_none rfl rfl
  | sendEv c t =>
    show CounterSpec s ((send_message env s c t).1, (send_message env s c t).2.1)
    unfold send_message
    split
    · exact counterSpec_of_none rfl rfl
    · exact counterSpec_of_one rfl (by simp [get_next_rpc_id, allocIds, allocIdOf, frameAllocId])
  | disconnectEv =>
    exact counterSpec_of_none (alloc_disconnect s 1000 "Normal closure").1
      (alloc_disconnect s 1000 "Normal closure").2
  | stopEv =>
    exact counterSpec_of_none
      (alloc_disconnect { s with running := false } 1000 "Normal closure").1
      (alloc_disconnect { s with running := false } 1000 "Normal closure").2

theorem counterSpec_run (env : Env) (es : List Ev) :
    ∀ s : PullState, CounterSpec s (run env s es) := by
  induction es with
  | nil =>
    intro s
    exact counterSpec_of_none rfl rfl
  | cons e rest ih =>
    intro s
    obtain ⟨h1, h2⟩ := counterSpec_step env s e
    obtain ⟨h3, h4⟩ := ih (step env s e).1
    have hids : allocIds (run env s (e :: rest)).2
        = allocIds (step env s e).2 ++ allocIds (run env (step env s e).1 rest).2 := by
      show allocIds ((step env s e).2 ++ (run env (step env s e).1 rest).2) = _
      exact allocIds_append ..
    constructor
    · show (run env (step env s e).1 rest).1.rpc_id_counter = _
      rw [h3, h1, hids]
      simp [Nat.add_assoc]
    · rw [hids, h2, h4, h1]
      have := List.range'_append (s.rpc_id_counter + 1)
        (allocIds (step env s e).2).length
        (allocIds (run env (step env s e).1 rest).2).length 1
      simp only [Nat.one_mul] at this
      rw [show s.rpc_id_counter + (allocIds (step env s e).2).length + 1
          = s.rpc_id_counter + 1 + (allocIds (step env s e).2).length by omega]
      rw [this]
      congr 1
      simp [Nat.add_comm]

/-- C10: over the lifetime of one client instance, the counter-allocated
rpc ids of ALL outbound frames (subscribe, keepalive ping, ack, publish)
over ANY event trace — reconnect cycles included — form exactly the
consecutive sequence 1, 2, …, k where k is the final counter value: the
first allocated id is 1, ids are strictly increasing across all frame
kinds, and the counter is never reset after construction. -/
theorem c10_theorem (env : Env) (uid : Int) (site : String) (tok : Bool)
    (es : List Ev) :
    allocIds (run env (initState env uid site tok) es).2
      = List.range' 1
          (run env (initState env uid site tok) es).1.rpc_id_counter := by
  obtain ⟨h1, h2⟩ := counterSpec_run env es (initState env uid site tok)
  have h0 : (initState env uid site tok).rpc_id_counter = 0 := rfl
  rw [h2, h0]
  rw [h1, h0]
  simp

end BitrixPull
